import Mathlib

/-!
# Verification of `lib_socks_proxy_2013_10_03/socks_proxy.py`

A shallow embedding of the SOCKS5 client handshake implemented in
`src/lib_socks_proxy_2013_10_03/socks_proxy.py`, together with theorems
settling the frozen claims about it.

Modelling conventions:

* Bytes are `Nat` values; where the source reads bytes from the wire
  (`struct.unpack('!B', ...)`) the resulting values are below 256.
* `struct.pack` calls whose fields are `'!B'` (unsigned byte) and `'!H'`
  (big-endian unsigned 16-bit) are modelled as the corresponding
  big-endian byte lists; a value outside a field's range is a packing
  error (`struct.error`), modelled by the `Err.structErr` constructor.
* Timeout values (Python floats) are modelled as opaque `Nat` values;
  the claims only depend on whether and where a timeout is applied,
  never on its arithmetic.  `DEFAULT_PROXY_TIMEOUT = 60.0` becomes `60`.
* The external dial adapter (`monkey_patch.original_create_connection`)
  and the byte stream are modelled per their interface: the stream
  delivers a determined sequence of bytes.
-/

namespace SocksProxy

/-- The exception taxonomy of the module (lines 26-39 of the source), plus
`structErr` for `struct.error` raised by the standard library's packing
routines (not a `SocksProxyError`). -/
inductive Err where
  | argErr (msg : String)
  | formatErr (msg : String)
  | authErr (msg : String)
  | connectErr (reason : String)
  | structErr (msg : String)
deriving DecidableEq, Repr

/-! ## The exact-read primitive `recv_all_into` (source lines 41-48)

The socket is modelled as an unbounded byte source `data : Nat → Nat`
with a read position, plus a delivery schedule `sched`: the `i`-th call
to `recv` delivers `min (sched i) n` bytes into a window of length `n`
(the spec's Stream interface: `read(buffer)` places up to `len(buffer)`
bytes and returns the count, `0` on peer close). -/

structure Sock where
  data : Nat → Nat
  pos : Nat
  calls : Nat
  sched : Nat → Nat

/-- One `sock.recv(buf)` call on a window of length `n`: delivers
`min (sched calls) n` bytes from the stream, returning the bytes placed
into the window. -/
def recv (s : Sock) (n : Nat) : Sock × List Nat :=
  let k := min (s.sched s.calls) n
  ({ s with pos := s.pos + k, calls := s.calls + 1 },
   (List.range k).map fun i => s.data (s.pos + i))

/-- The loop of `recv_all_into` (source lines 45-48), fuel-instrumented
because the source loop need not terminate.  State: `bufLen` is the
length of the current `memoryview` window, `recvRes` the count returned
by the previous `recv`, `acc` the bytes written into the original buffer
so far.  Returns `none` when the fuel runs out (the loop is still
running), `some (sock, buffer)` when the loop exits. -/
def recvAllIntoAux (sock : Sock) (bufLen recvRes : Nat) (acc : List Nat) :
    Nat → Option (Sock × List Nat)
  | 0 => none
  | fuel + 1 =>
    if recvRes < bufLen then
      let bufLen' := if 0 < recvRes then bufLen - recvRes else bufLen
      let r := recv sock bufLen'
      recvAllIntoAux r.1 bufLen' r.2.length (acc ++ r.2) fuel
    else
      some (sock, acc)

/-- `recv_all_into(sock, buf)` for a buffer of length `bufLen`
(source lines 41-48): `recv_res` starts at `0`, the window is the whole
buffer. -/
def recv_all_into (sock : Sock) (bufLen fuel : Nat) : Option (Sock × List Nat) :=
  recvAllIntoAux sock bufLen 0 [] fuel

/-! ## The handshake phases

For the phase-level and whole-call theorems the proxy's reply stream is
a determined byte list and an exact read of `n` bytes consumes its first
`n` elements (`recv_all_into` assembles exactly the stream's next `n`
bytes under any positive delivery schedule; see
`recv_all_into_fragmented_ok`).  `readN n inp` is `none` when the stream
holds fewer than `n` bytes — the exact read cannot complete. -/

/-- Exact read of `n` bytes from a determined stream: the bytes read and
the remaining stream, or `none` if fewer than `n` bytes are available. -/
def readN (n : Nat) (inp : List Nat) : Option (List Nat × List Nat) :=
  if n ≤ inp.length then some (inp.take n, inp.drop n) else none

/-- Python's `str.encode()` (UTF-8) for the target hostname
(source line 112, `address[0].encode()`): byte list of the UTF-8
encoding of the string. -/
def utf8Char (c : Char) : List Nat :=
  let n := c.toNat
  if n < 0x80 then [n]
  else if n < 0x800 then [0xC0 + n / 64, 0x80 + n % 64]
  else if n < 0x10000 then
    [0xE0 + n / 4096, 0x80 + n / 64 % 64, 0x80 + n % 64]
  else
    [0xF0 + n / 262144, 0x80 + n / 4096 % 64, 0x80 + n / 64 % 64, 0x80 + n % 64]

/-- `hostname.encode()`: UTF-8 bytes of the hostname string. -/
def pyEncode (s : String) : List Nat :=
  (s.data.map utf8Char).flatten

/-- Python's `hex(n)` for a non-negative integer: `"0x"` followed by the
lowercase hexadecimal digits of `n` (source line 158). -/
def pyHex (n : Nat) : String :=
  "0x" ++ String.mk (Nat.toDigits 16 n)

/-- The greeting request bytes (source lines 89-94):
`struct.pack` of version `0x05`, method count `0x01`, method `0x00`,
each an unsigned-byte field. -/
def greeting_send : List Nat := [0x05, 0x01, 0x00]

/-- The greeting reply checks (source lines 100-104) on the two unpacked
reply bytes `recv_data[0]`, `recv_data[1]`. -/
def greeting_check (v m : Nat) : Except Err Unit :=
  if v ≠ 0x05 then
    .error (.formatErr "invalid socks-proxy format (socks5: greeting phase)")
  else if m ≠ 0x00 then
    .error (.authErr "invalid socks-proxy authorization (socks5: greeting phase)")
  else
    .ok ()

/-- The greeting read-and-check (source lines 96-104): exact-read 2
bytes, unpack, run the checks; returns the phase outcome and the
remaining stream. -/
def greeting_phase (inp : List Nat) : Option (Except Err Unit × List Nat) :=
  match readN 2 inp with
  | none => none
  | some (g, rest) => some (greeting_check (g.getD 0 0) (g.getD 1 0), rest)

/-- The command request bytes (source lines 112-129):
`struct.pack('!B!B!B!B!B', 0x05, 0x01, 0x00, 0x03, len(host_bytes))
 + host_bytes + struct.pack('!H', address[1])`.
Packing an unsigned-byte field with a value above 255, or a `'!H'` field
with a value outside `0..65535`, raises `struct.error` before anything
is sent. -/
def command_request (host_bytes : List Nat) (port : Int) : Except Err (List Nat) :=
  if host_bytes.length ≤ 255 then
    if 0 ≤ port ∧ port < 65536 then
      .ok ([0x05, 0x01, 0x00, 0x03, host_bytes.length] ++ host_bytes ++
        [port.toNat / 256, port.toNat % 256])
    else
      .error (.structErr "'H' format requires 0 <= number <= 65535")
  else
    .error (.structErr "ubyte format requires 0 <= number <= 255")

/-- The status-code-to-description mapping of the command phase
(source lines 139-158): `error_descr` for a non-zero status byte. -/
def error_descr (status : Nat) : String :=
  if status = 0x01 then "general failure"
  else if status = 0x02 then "connection not allowed by ruleset"
  else if status = 0x03 then "network unreachable"
  else if status = 0x04 then "host unreachable"
  else if status = 0x05 then "connection refused by destination host"
  else if status = 0x06 then "TTL expired"
  else if status = 0x07 then "command not supported / protocol error"
  else if status = 0x08 then "address type not supported"
  else pyHex status

/-- The command reply-header checks (source lines 135-163) on the two
unpacked bytes: wrong version is a format error, a non-zero status is a
connect error carrying `error_descr` of the status byte as its reason. -/
def command_check (v status : Nat) : Except Err Unit :=
  if v ≠ 0x05 then
    .error (.formatErr "invalid socks-proxy format (socks5: command phase)")
  else if status ≠ 0x00 then
    .error (.connectErr (error_descr status))
  else
    .ok ()

/-- The reply-address drain (source lines 165-191): exact-read the
2-byte `{reserved, address-type}` header, dispatch on the second byte
(`recv_data[1]`): `0x01` reads 4 address bytes, `0x03` reads a length
byte `L` and then `L` bytes, `0x04` reads 16 bytes, anything else raises
a format error; on the non-error paths finally exact-read the 2 port
bytes.  Returns the outcome together with the remaining stream
(`none` when an exact read cannot complete). -/
def drain_phase (inp : List Nat) : Option (Except Err Unit × List Nat) :=
  match readN 2 inp with
  | none => none
  | some (hdr, rest) =>
    let atyp := hdr.getD 1 0
    if atyp = 0x01 then
      match readN 4 rest with
      | none => none
      | some (_, r2) =>
        match readN 2 r2 with
        | none => none
        | some (_, r3) => some (.ok (), r3)
    else if atyp = 0x03 then
      match readN 1 rest with
      | none => none
      | some (lenB, r2) =>
        match readN (lenB.getD 0 0) r2 with
        | none => none
        | some (_, r3) =>
          match readN 2 r3 with
          | none => none
          | some (_, r4) => some (.ok (), r4)
    else if atyp = 0x04 then
      match readN 16 rest with
      | none => none
      | some (_, r2) =>
        match readN 2 r2 with
        | none => none
        | some (_, r3) => some (.ok (), r3)
    else
      some (.error (.formatErr "invalid socks-proxy format (socks5: command phase)"), rest)

/-! ## The orchestrator `socks_proxy_create_connection` (source lines 52-198) -/

/-- A Python value as far as the `address` argument is concerned:
the validation at source lines 65-68 distinguishes strings, integers,
tuples/lists (both modelled by `tup`) and everything else. -/
inductive PyVal where
  | str (s : String)
  | int (n : Int)
  | tup (xs : List PyVal)
  | other

/-- The entry validation condition (source lines 65-68):
`address` is a tuple or list, of length 2, whose first element is a
`str` and whose second element is an `int`.  Nothing else — emptiness of
the host string and the range of the port are not checked here. -/
def validShape : PyVal → Bool
  | .tup [.str _, .int _] => true
  | _ => false

/-- `DEFAULT_PROXY_TIMEOUT = 60.0` (source line 24). -/
def DEFAULT_PROXY_TIMEOUT : Nat := 60

/-- The successful result of `socks_proxy_create_connection`:
the timeout currently set on the returned socket (the one the dial
adapter applied, source lines 76-84), the argument of the module-level
`socket.settimeout(...)` call of source line 196 if it was made
(note: made on the `socket` module, not on `sock`), the bytes written
to the proxy, and the proxy bytes left unread. -/
structure ConnOk where
  sock_timeout : Nat
  module_settimeout : Option Nat
  written : List Nat
  remaining : List Nat
deriving DecidableEq, Repr

/-- Outcome of a `socks_proxy_create_connection` call: a returned
socket, an exception carrying the bytes written and the proxy bytes
left unread at raise time, or an exact read left waiting because the
proxy stream held fewer bytes than required. -/
inductive Outcome where
  | ok (r : ConnOk)
  | fail (e : Err) (written remaining : List Nat)
  | blocked
deriving DecidableEq, Repr

/-- `socks_proxy_create_connection` (source lines 52-198) over a
determined proxy reply stream `inp`.

* `timeout` is the second positional parameter; `none` models the
  `_CREATE_CONNECTION_DEFAULT_VALUE` sentinel (parameter not supplied).
* `proxy_timeout` is `kwargs.get('proxy_timeout')`.
* Lines 65-71: shape validation, `ArgSocksProxyError` before any I/O.
* Lines 76-84: the dial adapter sets the socket timeout to
  `proxy_timeout` or the default (the keep-alive option of line 85 and
  `proxy_source_address` do not affect any claim and are omitted).
* Lines 89-104: greeting phase; 112-129: command request (the
  `struct.pack` range checks run before `sendall`, so a packing error
  leaves the command bytes unwritten); 131-163: command reply header;
  165-191: reply-address drain; 195-196: the end phase calls
  `socket.settimeout(timeout)` — on the module — iff `timeout` was
  supplied, leaving `sock`'s own timeout unchanged. -/
def socks_proxy_create_connection (address : PyVal)
    (timeout proxy_timeout : Option Nat) (inp : List Nat) : Outcome :=
  match address with
  | .tup [.str hostname, .int port] =>
    let dial_timeout := proxy_timeout.getD DEFAULT_PROXY_TIMEOUT
    match greeting_phase inp with
    | none => .blocked
    | some (.error e, rest) => .fail e greeting_send rest
    | some (.ok (), rest) =>
      match command_request (pyEncode hostname) port with
      | .error e => .fail e greeting_send rest
      | .ok req =>
        match readN 2 rest with
        | none => .blocked
        | some (c, rest2) =>
          match command_check (c.getD 0 0) (c.getD 1 0) with
          | .error e => .fail e (greeting_send ++ req) rest2
          | .ok () =>
            match drain_phase rest2 with
            | none => .blocked
            | some (.error e, rest3) => .fail e (greeting_send ++ req) rest3
            | some (.ok (), rest3) =>
              match timeout with
              | none => .ok ⟨dial_timeout, none, greeting_send ++ req, rest3⟩
              | some t => .ok ⟨dial_timeout, some t, greeting_send ++ req, rest3⟩
  | _ =>
    .fail (.argErr "address of connection must be tuple: hostname (str) and port (int)")
      [] inp

/-! ## Lemmas about the exact-read loop -/

/-- One unfolding of the `recv_all_into` loop. -/
lemma recvAllIntoAux_succ (sock : Sock) (w r : Nat) (acc : List Nat) (fuel : Nat) :
    recvAllIntoAux sock w r acc (fuel + 1) =
      if r < w then
        recvAllIntoAux (recv sock (if 0 < r then w - r else w)).1
          (if 0 < r then w - r else w)
          (recv sock (if 0 < r then w - r else w)).2.length
          (acc ++ (recv sock (if 0 < r then w - r else w)).2) fuel
      else some (sock, acc) := rfl

/-- On a stream that persistently delivers 0 bytes, the loop body never
makes progress: for every fuel bound the loop is still running. -/
lemma recvAllIntoAux_zero_sched : ∀ (fuel : Nat) (w : Nat) (acc : List Nat) (sock : Sock),
    (∀ i, sock.sched i = 0) → 0 < w →
    recvAllIntoAux sock w 0 acc fuel = none := by
  intro fuel
  induction fuel with
  | zero => intro w acc sock _ _; rfl
  | succ f ih =>
    intro w acc sock hz hw
    simp only [recvAllIntoAux_succ, if_pos hw, recv, hz, Nat.zero_min, lt_irrefl,
      if_neg, Nat.min_self, List.range_zero, List.map_nil, List.append_nil,
      List.length_nil, Nat.lt_irrefl, ite_false]
    exact ih w acc _ (fun i => hz _) hw

/-- The loop invariant for positive delivery schedules: entering an
iteration with window length `w`, previous read count `r ≤ w` and
`acc` already written, the loop terminates within `w - r` further
iterations having appended exactly the stream's next `w - r` bytes and
advanced the stream by `w - r`. -/
lemma recvAllIntoAux_pos_spec : ∀ (fuel w r : Nat) (acc : List Nat) (sock : Sock),
    (∀ i, 0 < sock.sched i) → r ≤ w → w - r ≤ fuel →
    ∃ s2 : Sock, recvAllIntoAux sock w r acc (fuel + 1) =
        some (s2, acc ++ (List.range (w - r)).map (fun i => sock.data (sock.pos + i))) ∧
      s2.pos = sock.pos + (w - r) ∧ s2.data = sock.data ∧ s2.sched = sock.sched := by
  intro fuel
  induction fuel with
  | zero =>
    intro w r acc sock _ hrw hf
    have hw : r = w := by omega
    subst hw
    refine ⟨sock, ?_, by omega, rfl, rfl⟩
    rw [recvAllIntoAux_succ, if_neg (lt_irrefl r)]
    simp
  | succ f ih =>
    intro w r acc sock hp hrw hf
    by_cases h : r < w
    · have hb : (if 0 < r then w - r else w) = w - r := by split <;> omega
      rw [recvAllIntoAux_succ, if_pos h, hb]
      set k := min (sock.sched sock.calls) (w - r) with hk
      have hk1 : 0 < k := by
        have := hp sock.calls
        exact Nat.lt_min.mpr ⟨this, by omega⟩
      have hk2 : k ≤ w - r := Nat.min_le_right _ _
      have hlen : ((recv sock (w - r)).2).length = k := by
        simp [recv, hk]
      rw [hlen]
      obtain ⟨s2, heq, hpos, hdata, hsched⟩ :=
        ih (w - r) k (acc ++ (recv sock (w - r)).2) (recv sock (w - r)).1
          (by intro i; simpa [recv] using hp i) hk2 (by omega)
      have h1 : (recv sock (w - r)).1.data = sock.data := by simp [recv]
      have h2 : (recv sock (w - r)).1.pos = sock.pos + k := by simp [recv, hk]
      have h3 : (recv sock (w - r)).2
          = (List.range k).map (fun i => sock.data (sock.pos + i)) := by
        simp [recv, hk]
      refine ⟨s2, ?_, ?_, ?_, ?_⟩
      · rw [heq, h1, h2, h3]
        have hsplit : w - r = k + ((w - r) - k) := by omega
        congr 1
        rw [List.append_assoc]
        congr 1
        conv_rhs => rw [hsplit]
        rw [List.range_add, List.map_append, List.map_map]
        simp [Function.comp_def, Nat.add_assoc]
      · rw [hpos, h2]; omega
      · rw [hdata, h1]
      · rw [hsched]; simp [recv]
    · have hw : r = w := by omega
      subst hw
      refine ⟨sock, ?_, by omega, rfl, rfl⟩
      rw [recvAllIntoAux_succ, if_neg (lt_irrefl r)]
      simp

/-! ## Claims C1 and C8: the exact-read primitive -/

/-- C1, code behavior at the failing input: on a stream that
persistently returns 0 bytes into a not-yet-full buffer,
`recv_all_into` never terminates (for every fuel bound the loop is
still running) and in particular never raises any error.  The claim
says it must terminate with a `ConnectError` ("connection closed by
proxy"); the source's loop treats the zero-byte read as a retry
condition, which the spec itself flags as a bug of the original. -/
theorem recv_all_into_zero_read_loops (sock : Sock) (n : Nat) (hn : 0 < n)
    (hz : ∀ i, sock.sched i = 0) (fuel : Nat) :
    recv_all_into sock n fuel = none :=
  recvAllIntoAux_zero_sched fuel n [] sock hz hn

/-- Witness for `recv_all_into_zero_read_loops`: a 2-byte buffer over
the stream that always delivers 0 bytes. -/
theorem recv_all_into_zero_read_loops_witness :
    0 < 2 ∧ (∀ i, (⟨fun _ => 0, 0, 0, fun _ => 0⟩ : Sock).sched i = 0) ∧
      recv_all_into ⟨fun _ => 0, 0, 0, fun _ => 0⟩ 2 100 = none :=
  ⟨by decide, fun _ => rfl,
    recv_all_into_zero_read_loops ⟨fun _ => 0, 0, 0, fun _ => 0⟩ 2 (by decide)
      (fun _ => rfl) 100⟩

/-- C8: over any stream whose reads each deliver an arbitrary positive
number of bytes up to the amount requested, `recv_all_into` on a buffer
of length `N` terminates (fuel `N + 1` iterations suffice) having
placed exactly the stream's next `N` bytes into the buffer in order,
and having consumed exactly `N` bytes from the stream. -/
theorem recv_all_into_fragmented_ok (sock : Sock) (N : Nat)
    (hp : ∀ i, 0 < sock.sched i) :
    ∃ s2 : Sock, recv_all_into sock N (N + 1) =
        some (s2, (List.range N).map (fun i => sock.data (sock.pos + i))) ∧
      s2.pos = sock.pos + N ∧ s2.data = sock.data := by
  obtain ⟨s2, heq, hpos, hdata, _⟩ :=
    recvAllIntoAux_pos_spec N N 0 [] sock hp (Nat.zero_le N) (by omega)
  refine ⟨s2, ?_, by simpa using hpos, hdata⟩
  simpa [recv_all_into] using heq

/-- Witness for `recv_all_into_fragmented_ok`: the 1-byte-per-call
stream delivering bytes 10, 11, 12, ... -/
theorem recv_all_into_fragmented_ok_witness :
    (∀ i : Nat, 0 < (⟨fun i => i + 10, 0, 0, fun _ => 1⟩ : Sock).sched i) ∧
    ∃ s2 : Sock,
      recv_all_into ⟨fun i => i + 10, 0, 0, fun _ => 1⟩ 3 (3 + 1) =
          some (s2, (List.range 3).map fun i =>
            (⟨fun i => i + 10, 0, 0, fun _ => 1⟩ : Sock).data
              ((⟨fun i => i + 10, 0, 0, fun _ => 1⟩ : Sock).pos + i)) ∧
        s2.pos = (⟨fun i => i + 10, 0, 0, fun _ => 1⟩ : Sock).pos + 3 ∧
        s2.data = (⟨fun i => i + 10, 0, 0, fun _ => 1⟩ : Sock).data :=
  ⟨fun _ => Nat.one_pos,
    recv_all_into_fragmented_ok ⟨fun i => i + 10, 0, 0, fun _ => 1⟩ 3
      (fun _ => Nat.one_pos)⟩

/-! ## Claim C4: the command-phase request encoding -/

/-- C4: for every target hostname of encoded byte-length 1..255 and
every port 0..65535, the command-phase request is exactly
`0x05, 0x01, 0x00, 0x03`, a DOMAINLEN byte equal to the hostname's
encoded byte length, the hostname bytes, then the port as 2 bytes
big-endian — `7 + len(hostname)` bytes in total. -/
theorem command_request_encoding (s : String) (port : Int)
    (h1 : 1 ≤ (pyEncode s).length) (h2 : (pyEncode s).length ≤ 255)
    (h3 : 0 ≤ port) (h4 : port < 65536) :
    command_request (pyEncode s) port =
        .ok ([0x05, 0x01, 0x00, 0x03, (pyEncode s).length] ++ pyEncode s ++
          [port.toNat / 256, port.toNat % 256]) ∧
      ([0x05, 0x01, 0x00, 0x03, (pyEncode s).length] ++ pyEncode s ++
        [port.toNat / 256, port.toNat % 256]).length = 7 + (pyEncode s).length := by
  constructor
  · simp [command_request, h2, h3, h4]
  · simp [List.length_append]
    omega

/-- Witness for `command_request_encoding` at hostname `"example.com"`
and port 443. -/
theorem command_request_encoding_witness :
    (1 ≤ (pyEncode "example.com").length ∧ (pyEncode "example.com").length ≤ 255 ∧
      (0 : Int) ≤ 443 ∧ (443 : Int) < 65536) ∧
    command_request (pyEncode "example.com") 443 =
        .ok ([0x05, 0x01, 0x00, 0x03, (pyEncode "example.com").length] ++
          pyEncode "example.com" ++ [(443 : Int).toNat / 256, (443 : Int).toNat % 256]) ∧
      ([0x05, 0x01, 0x00, 0x03, (pyEncode "example.com").length] ++
        pyEncode "example.com" ++
        [(443 : Int).toNat / 256, (443 : Int).toNat % 256]).length =
        7 + (pyEncode "example.com").length :=
  ⟨⟨by decide, by decide, by decide, by decide⟩,
    command_request_encoding "example.com" 443 (by decide) (by decide)
      (by decide) (by decide)⟩

/-! ## Claim C6: the greeting phase -/

/-- C6: the greeting phase writes exactly the 3 bytes
`0x05 0x01 0x00`, then reads exactly 2 reply bytes; a reply whose first
byte is not `0x05` fails with `FormatError`, one whose second byte is
not `0x00` fails with `AuthError`, and the reply `0x05 0x00` succeeds
with no further output. -/
theorem greeting_phase_spec :
    greeting_send = [0x05, 0x01, 0x00] ∧
    ∀ (b0 b1 : Nat) (rest : List Nat),
      (b0 ≠ 0x05 → greeting_phase (b0 :: b1 :: rest) =
        some (.error (.formatErr "invalid socks-proxy format (socks5: greeting phase)"),
          rest)) ∧
      (b0 = 0x05 → b1 ≠ 0x00 → greeting_phase (b0 :: b1 :: rest) =
        some (.error
          (.authErr "invalid socks-proxy authorization (socks5: greeting phase)"),
          rest)) ∧
      (b0 = 0x05 → b1 = 0x00 → greeting_phase (b0 :: b1 :: rest) = some (.ok (), rest)) := by
  refine ⟨rfl, fun b0 b1 rest => ⟨?_, ?_, ?_⟩⟩
  · intro h
    simp [greeting_phase, readN, greeting_check, h]
  · intro h0 h1
    subst h0
    simp [greeting_phase, readN, greeting_check, h1]
  · intro h0 h1
    subst h0; subst h1
    simp [greeting_phase, readN, greeting_check]

/-- Witness for `greeting_phase_spec`: the replies `0x04 0x00`
(format error), `0x05 0x02` (auth error) and `0x05 0x00` (success). -/
theorem greeting_phase_spec_witness :
    greeting_phase [0x04, 0x00] =
        some (.error (.formatErr "invalid socks-proxy format (socks5: greeting phase)"),
          []) ∧
      greeting_phase [0x05, 0x02] =
        some (.error
          (.authErr "invalid socks-proxy authorization (socks5: greeting phase)"), []) ∧
      greeting_phase [0x05, 0x00] = some (.ok (), []) :=
  ⟨(greeting_phase_spec.2 0x04 0x00 []).1 (by decide),
    (greeting_phase_spec.2 0x05 0x02 []).2.1 rfl (by decide),
    (greeting_phase_spec.2 0x05 0x00 []).2.2 rfl rfl⟩

/-! ## Claim C7: the command reply header and the status table -/

/-- C7: on a command reply header with version byte `0x05`, status
`0x00` succeeds; statuses `0x01`-`0x08` fail with `ConnectError`
carrying the matching table entry as reason; any other status fails
with `ConnectError` carrying Python's hexadecimal rendering of the raw
status byte; a version byte other than `0x05` fails with
`FormatError`. -/
theorem command_check_status_mapping :
    (∀ b0 b1 : Nat, b0 ≠ 0x05 → command_check b0 b1 =
      .error (.formatErr "invalid socks-proxy format (socks5: command phase)")) ∧
    command_check 0x05 0x00 = .ok () ∧
    (∀ status : Nat, status ≠ 0 → command_check 0x05 status =
      .error (.connectErr (error_descr status))) ∧
    error_descr 0x01 = "general failure" ∧
    error_descr 0x02 = "connection not allowed by ruleset" ∧
    error_descr 0x03 = "network unreachable" ∧
    error_descr 0x04 = "host unreachable" ∧
    error_descr 0x05 = "connection refused by destination host" ∧
    error_descr 0x06 = "TTL expired" ∧
    error_descr 0x07 = "command not supported / protocol error" ∧
    error_descr 0x08 = "address type not supported" ∧
    (∀ status : Nat, 9 ≤ status → error_descr status = pyHex status) ∧
    error_descr 0xFF = "0xff" ∧
    error_descr 0x09 = "0x9" := by
  refine ⟨?_, rfl, ?_, by decide, by decide, by decide, by decide, by decide,
    by decide, by decide, by decide, ?_, by decide, by decide⟩
  · intro b0 b1 h
    simp [command_check, h]
  · intro status h
    simp [command_check, h]
  · intro status h
    have n1 : status ≠ 0x01 := by omega
    have n2 : status ≠ 0x02 := by omega
    have n3 : status ≠ 0x03 := by omega
    have n4 : status ≠ 0x04 := by omega
    have n5 : status ≠ 0x05 := by omega
    have n6 : status ≠ 0x06 := by omega
    have n7 : status ≠ 0x07 := by omega
    have n8 : status ≠ 0x08 := by omega
    simp [error_descr, n1, n2, n3, n4, n5, n6, n7, n8]

/-- Witness for `command_check_status_mapping`: version byte `0x04`
(format error), status `0x05` (refused), status `0x0A` (hex fallback). -/
theorem command_check_status_mapping_witness :
    command_check 0x04 0x00 =
        .error (.formatErr "invalid socks-proxy format (socks5: command phase)") ∧
      command_check 0x05 0x05 =
        .error (.connectErr (error_descr 0x05)) ∧
      error_descr 0x0A = pyHex 0x0A :=
  ⟨command_check_status_mapping.1 0x04 0x00 (by decide),
    command_check_status_mapping.2.2.1 0x05 (by decide),
    command_check_status_mapping.2.2.2.2.2.2.2.2.2.2.2.1 0x0A (by decide)⟩

/-! ## Claim C5: the reply-address drain -/

/-- C5: after the 2-byte reply-address header, the drain consumes
exactly `4 + 2` further bytes when the address-type byte is `0x01`,
exactly `1 + L + 2` when it is `0x03` with length byte `L` (including
`L = 0`), exactly `16 + 2` when it is `0x04`, and for any other
address-type value fails with `FormatError` immediately after the
header, consuming no further bytes. -/
theorem drain_phase_consumption (b0 atyp : Nat) (rest : List Nat) :
    (atyp = 0x01 → 6 ≤ rest.length →
      drain_phase (b0 :: atyp :: rest) = some (.ok (), rest.drop 6)) ∧
    (atyp = 0x03 → ∀ (L : Nat) (rest2 : List Nat), rest = L :: rest2 →
      L + 2 ≤ rest2.length →
      drain_phase (b0 :: atyp :: rest) = some (.ok (), rest2.drop (L + 2))) ∧
    (atyp = 0x04 → 18 ≤ rest.length →
      drain_phase (b0 :: atyp :: rest) = some (.ok (), rest.drop 18)) ∧
    (atyp ≠ 0x01 → atyp ≠ 0x03 → atyp ≠ 0x04 →
      drain_phase (b0 :: atyp :: rest) =
        some (.error (.formatErr "invalid socks-proxy format (socks5: command phase)"),
          rest)) := by
  have readN_cons2 : ∀ (a b : Nat) (l : List Nat), readN 2 (a :: b :: l) = some ([a, b], l) := by
    intro a b l
    simp [readN]
  have readN_cons1 : ∀ (a : Nat) (l : List Nat), readN 1 (a :: l) = some ([a], l) := by
    intro a l
    simp [readN]
  refine ⟨?_, ?_, ?_, ?_⟩
  · intro h hlen
    subst h
    have h4 : 4 ≤ rest.length := by omega
    have h2 : 2 ≤ rest.length - 4 := by omega
    simp [drain_phase, readN_cons2, readN, h4, h2, List.drop_drop]
  · intro h L rest2 hrest hlen
    subst h
    subst hrest
    have hL : L ≤ rest2.length := by omega
    have h2 : 2 ≤ rest2.length - L := by omega
    have hc : 2 + L = L + 2 := by omega
    simp [drain_phase, readN_cons2, readN_cons1, readN, hL, h2, List.drop_drop, hc]
  · intro h hlen
    subst h
    have h16 : 16 ≤ rest.length := by omega
    have h2 : 2 ≤ rest.length - 16 := by omega
    simp [drain_phase, readN_cons2, readN, h16, h2, List.drop_drop]
  · intro h1 h3 h4
    simp [drain_phase, readN_cons2, h1, h3, h4]

/-- Exact read of 2 bytes from a stream holding at least 2. -/
lemma readN_two (a b : Nat) (l : List Nat) : readN 2 (a :: b :: l) = some ([a, b], l) := by
  simp [readN]

/-- Witness for `drain_phase_consumption`: a domain-typed reply address
with length byte 2, and an unknown address type 0x09. -/
theorem drain_phase_consumption_witness :
    drain_phase [0x00, 0x03, 2, 77, 88, 0x1F, 0x90] = some (.ok (), []) ∧
      drain_phase [0x00, 0x09, 1, 2, 3] =
        some (.error (.formatErr "invalid socks-proxy format (socks5: command phase)"),
          [1, 2, 3]) :=
  ⟨by
    have h := (drain_phase_consumption 0x00 0x03 [2, 77, 88, 0x1F, 0x90]).2.1 rfl
      2 [77, 88, 0x1F, 0x90] rfl (by decide)
    simpa using h,
   by
    have h := (drain_phase_consumption 0x00 0x09 [1, 2, 3]).2.2.2
      (by decide) (by decide) (by decide)
    simpa using h⟩

/-! ## Claim C10: CONNECT failure leaves the reply address unread -/

/-- C10: when the command reply header has version `0x05` and a
non-zero status, the call fails with `ConnectError` having consumed
exactly the 2 greeting-reply bytes and the 2 command-reply-header
bytes: the reply-address drain runs only on the success path, so all
bytes after the header are left unconsumed on the stream. -/
theorem connect_failure_skips_drain (s : String) (port : Int)
    (h2 : (pyEncode s).length ≤ 255) (h3 : 0 ≤ port) (h4 : port < 65536)
    (status : Nat) (hs : status ≠ 0) (rest : List Nat) (t pt : Option Nat) :
    socks_proxy_create_connection (.tup [.str s, .int port]) t pt
        (0x05 :: 0x00 :: 0x05 :: status :: rest) =
      .fail (.connectErr (error_descr status))
        (greeting_send ++ ([0x05, 0x01, 0x00, 0x03, (pyEncode s).length] ++ pyEncode s ++
          [port.toNat / 256, port.toNat % 256])) rest := by
  simp [socks_proxy_create_connection, greeting_phase, greeting_check, readN_two,
    command_request, h2, h3, h4, command_check, hs]

/-- Witness for `connect_failure_skips_drain`: host `"h"`, port 80,
status `0x05`, three pending reply-address bytes left unread. -/
theorem connect_failure_skips_drain_witness :
    (pyEncode "h").length ≤ 255 ∧ (0 : Int) ≤ 80 ∧ (80 : Int) < 65536 ∧ (0x05 : Nat) ≠ 0 ∧
    socks_proxy_create_connection (.tup [.str "h", .int 80]) none none
        (0x05 :: 0x00 :: 0x05 :: 0x05 :: [9, 9, 9]) =
      .fail (.connectErr (error_descr 0x05))
        (greeting_send ++ ([0x05, 0x01, 0x00, 0x03, (pyEncode "h").length] ++ pyEncode "h" ++
          [(80 : Int).toNat / 256, (80 : Int).toNat % 256])) [9, 9, 9] :=
  ⟨by decide, by decide, by decide, by decide,
    connect_failure_skips_drain "h" 80 (by decide) (by decide) (by decide)
      0x05 (by decide) [9, 9, 9] none none⟩

/-! ## Claim C2: over-long hostnames are not rejected up front -/

/-- A hostname whose UTF-8 encoding is 256 bytes long. -/
def longHost : String := String.mk (List.replicate 256 'a')

set_option maxRecDepth 100000 in
/-- C2, code behavior at the failing input: for a hostname encoding to
256 bytes, the call does not fail with `ArgSocksProxyError` during the
up-front validation; it proceeds into the handshake, writes the 3-byte
greeting, reads the greeting reply, and only then fails — with
`struct.error` from packing the over-long length into the DOMAINLEN
byte (source line 120), not with the claimed `ArgumentError`, and after
bytes have already been written to the stream. -/
theorem connect_long_hostname_struct_error :
    (pyEncode longHost).length = 256 ∧
    socks_proxy_create_connection (.tup [.str longHost, .int 80]) none none
        [0x05, 0x00] =
      .fail (.structErr "ubyte format requires 0 <= number <= 255")
        [0x05, 0x01, 0x00] [] :=
  ⟨by decide, by decide⟩

/-! ## Claim C3: the post-handshake timeout goes to the module, not the sock -/

/-- C3, code behavior at the failing input: a fully successful
handshake with caller-supplied post-handshake timeout 30 returns the
socket with its timeout still at the dial-time value 60
(`DEFAULT_PROXY_TIMEOUT`) — the `socket.settimeout(timeout)` call of
source line 196 is made on the `socket` module, not on the `sock`
object being returned.  When no post-handshake timeout is supplied, no
timeout call is made at all (that half of the claim holds). -/
theorem connect_timeout_applied_to_module :
    (socks_proxy_create_connection (.tup [.str "h", .int 80]) (some 30) none
        [0x05, 0x00, 0x05, 0x00, 0x00, 0x01, 0, 0, 0, 0, 0, 0] =
      .ok ⟨60, some 30, [0x05, 0x01, 0x00, 0x05, 0x01, 0x00, 0x03, 0x01, 104, 0, 80], []⟩) ∧
    (socks_proxy_create_connection (.tup [.str "h", .int 80]) none none
        [0x05, 0x00, 0x05, 0x00, 0x00, 0x01, 0, 0, 0, 0, 0, 0] =
      .ok ⟨60, none, [0x05, 0x01, 0x00, 0x05, 0x01, 0x00, 0x03, 0x01, 104, 0, 80], []⟩) :=
  ⟨by decide, by decide⟩


/-! ## Claim C9: entry validation checks shape and types only -/

/-- The greeting checks never raise `ArgSocksProxyError`. -/
lemma greeting_check_not_argErr (v m : Nat) (s : String) :
    greeting_check v m ≠ .error (.argErr s) := by
  unfold greeting_check
  split_ifs <;> simp

/-- The greeting phase never raises `ArgSocksProxyError`. -/
lemma greeting_phase_not_argErr (inp : List Nat) (s : String) (rest : List Nat) :
    greeting_phase inp ≠ some (.error (.argErr s), rest) := by
  unfold greeting_phase
  split
  · simp
  · intro h
    simp only [Option.some.injEq, Prod.mk.injEq] at h
    exact greeting_check_not_argErr _ _ s h.1

/-- The command-request packing never raises `ArgSocksProxyError`. -/
lemma command_request_not_argErr (hb : List Nat) (p : Int) (s : String) :
    command_request hb p ≠ .error (.argErr s) := by
  unfold command_request
  split_ifs <;> simp

/-- The command reply-header checks never raise `ArgSocksProxyError`. -/
lemma command_check_not_argErr (v st : Nat) (s : String) :
    command_check v st ≠ .error (.argErr s) := by
  unfold command_check
  split_ifs <;> simp

/-- The reply-address drain never raises `ArgSocksProxyError`. -/
lemma drain_phase_not_argErr (inp : List Nat) (s : String) (rest : List Nat) :
    drain_phase inp ≠ some (.error (.argErr s), rest) := by
  intro h
  unfold drain_phase at h
  repeat' split at h
  all_goals simp_all [ite_eq_iff]

/-- A value passing the entry validation is a 2-tuple of a string and
an integer. -/
lemma validShape_spec (address : PyVal) (hv : validShape address = true) :
    ∃ (h : String) (p : Int), address = .tup [.str h, .int p] := by
  cases address with
  | str s => simp [validShape] at hv
  | int n => simp [validShape] at hv
  | other => simp [validShape] at hv
  | tup xs =>
    cases xs with
    | nil => simp [validShape] at hv
    | cons a l =>
      cases l with
      | nil => cases a <;> simp [validShape] at hv
      | cons b l2 =>
        cases l2 with
        | cons c l3 => cases a <;> cases b <;> simp [validShape] at hv
        | nil =>
          cases a with
          | str h =>
            cases b with
            | int p => exact ⟨h, p, rfl⟩
            | str s2 => simp [validShape] at hv
            | tup ys => simp [validShape] at hv
            | other => simp [validShape] at hv
          | int n => cases b <;> simp [validShape] at hv
          | tup ys => cases b <;> simp [validShape] at hv
          | other => cases b <;> simp [validShape] at hv

/-- C9 (amended): the entry validation (source lines 65-71) rejects,
with `ArgSocksProxyError` and before any I/O, exactly the targets that
are not a 2-element tuple/list of a string and an integer; every target
of that shape passes validation, and no later phase raises
`ArgSocksProxyError` — the validation happens once, at the entry point.
(Emptiness of the host string and the numeric range of the port are not
validated; see the counterexample.) -/
theorem connect_validation_shape_only (address : PyVal) (t pt : Option Nat)
    (inp : List Nat) :
    (validShape address = false →
      socks_proxy_create_connection address t pt inp =
        .fail (.argErr "address of connection must be tuple: hostname (str) and port (int)")
          [] inp) ∧
    (validShape address = true → ∀ (m : String) (w r : List Nat),
      socks_proxy_create_connection address t pt inp ≠ .fail (.argErr m) w r) := by
  constructor
  · intro hv
    cases address with
    | str s => rfl
    | int n => rfl
    | other => rfl
    | tup xs =>
      cases xs with
      | nil => rfl
      | cons a l =>
        cases l with
        | nil => cases a <;> rfl
        | cons b l2 =>
          cases l2 with
          | cons c l3 => cases a <;> cases b <;> rfl
          | nil =>
            cases a with
            | str s =>
              cases b with
              | int n => simp [validShape] at hv
              | str s2 => rfl
              | tup ys => rfl
              | other => rfl
            | int n => cases b <;> rfl
            | tup ys => cases b <;> rfl
            | other => cases b <;> rfl
  · intro hv m w r heq
    obtain ⟨h, p, rfl⟩ := validShape_spec address hv
    simp only [socks_proxy_create_connection] at heq
    repeat' split at heq
    all_goals simp_all [ite_eq_iff, greeting_phase_not_argErr, drain_phase_not_argErr,
      command_request_not_argErr, command_check_not_argErr]

/-- Witness for `connect_validation_shape_only`: the malformed target
`3` (not a tuple) is rejected with no bytes written, and the
shape-valid target `("h", 80)` never produces an `ArgumentError`. -/
theorem connect_validation_shape_only_witness :
    validShape (.int 3) = false ∧
      socks_proxy_create_connection (.int 3) none none [] =
        .fail (.argErr "address of connection must be tuple: hostname (str) and port (int)")
          [] [] :=
  ⟨rfl, (connect_validation_shape_only (.int 3) none none []).1 rfl⟩

/-- C9, counterexample: two targets that the claim calls malformed —
`("", 80)` (empty host string) and `("a", 70000)` (port out of range) —
are not rejected by the entry validation: the first completes the whole
handshake successfully, the second fails only inside the command phase
with `struct.error`, both after writing the 3-byte greeting, and
neither raises `ArgSocksProxyError`. -/
theorem connect_malformed_not_rejected :
    socks_proxy_create_connection (.tup [.str "", .int 80]) none none
        [0x05, 0x00, 0x05, 0x00, 0x00, 0x01, 0, 0, 0, 0, 0, 0] =
      .ok ⟨60, none, [0x05, 0x01, 0x00, 0x05, 0x01, 0x00, 0x03, 0x00, 0, 80], []⟩ ∧
    socks_proxy_create_connection (.tup [.str "a", .int 70000]) none none
        [0x05, 0x00] =
      .fail (.structErr "'H' format requires 0 <= number <= 65535")
        [0x05, 0x01, 0x00] [] :=
  ⟨by decide, by decide⟩

end SocksProxy
